import Mathlib

/-!
Shallow embedding of the snift-backend scoring engine
(src/services/calculate.go and src/models/certificate.go).

External observations (the HEAD probe, `dig` TXT lookups, the TLS dial and
the incident feed) are passed in explicitly as values of `Except`/plain
types; everything the Go code computes from them is translated directly.
Go `int` is modelled as `Int`; the `float64` normalization
`math.Ceil((score/max)*100)/100` is modelled exactly over `ℚ`.
-/

namespace Snift

/-! ### Go string primitives

Structural (kernel-reducible) models of the `strings` functions the Go
code uses, over the character list of a `String`.  The scored header
values, schemes and DNS records are ASCII, where these agree with Go's
Unicode-aware versions; Go indexes by byte where these index by
character, which also coincides on ASCII. -/

/-- The characters Go's `strings.TrimSpace` trims (`unicode.IsSpace` in
Latin-1: space, `\t`, `\n`, vertical tab, form feed, `\r`, NEL, NBSP). -/
def isGoSpace (c : Char) : Bool :=
  c = ' ' || c = '\t' || c = '\n' || c = '\x0b' || c = '\x0c' || c = '\r'
    || c = Char.ofNat 133 || c = Char.ofNat 160

/-- `strings.TrimSpace`. -/
def goTrim (s : String) : String :=
  ⟨((s.data.dropWhile isGoSpace).reverse.dropWhile isGoSpace).reverse⟩

/-- `strings.ToLower` (ASCII case mapping). -/
def goToLower (s : String) : String := ⟨s.data.map Char.toLower⟩

/-- `strings.HasPrefix`. -/
def goHasPrefix (s pre : String) : Bool := pre.data.isPrefixOf s.data

/-- `strings.HasSuffix`. -/
def goHasSuffix (s suf : String) : Bool := suf.data.isSuffixOf s.data

/-- `strings.EqualFold` (ASCII: compare the lower-cased strings). -/
def goEqualFold (s t : String) : Bool := decide (goToLower s = goToLower t)

/-- Does `pat` occur as a contiguous sublist of `s`? -/
def listContainsSub (s pat : List Char) : Bool :=
  match s with
  | [] => pat.isEmpty
  | _ :: rest => pat.isPrefixOf s || listContainsSub rest pat

/-- `strings.Contains`. -/
def goContains (s pat : String) : Bool := listContainsSub s.data pat.data

/-- Worker for `strings.Split` with a non-empty separator, structural on
a fuel argument (any `fuel ≥ s.length` never runs out). -/
def splitFuel (sep : List Char) : Nat → List Char → List Char → List (List Char)
  | _, acc, [] => [acc.reverse]
  | 0, acc, s => [acc.reverse ++ s]
  | fuel + 1, acc, c :: rest =>
      if sep.isPrefixOf (c :: rest) then
        acc.reverse :: splitFuel sep fuel [] (List.drop (sep.length - 1) rest)
      else
        splitFuel sep fuel (c :: acc) rest

/-- `strings.Split` (non-empty separator). -/
def goSplit (s sep : String) : List String :=
  (splitFuel sep.data s.data.length [] s.data).map fun l => ⟨l⟩

/-- `strings.Replace(s, old, new, -1)`: replace every occurrence. -/
def goReplaceAll (s pat rep : String) : String :=
  ⟨List.intercalate rep.data ((goSplit s pat).map String.data)⟩

/-- Header-name constants from src/services/calculate.go. -/
def XSSHeader : String := "X-Xss-Protection"

def XFrameHeader : String := "X-Frame-Options"

def HSTSHeader : String := "Strict-Transport-Security"

def CSPHeader : String := "Content-Security-Policy"

def PKPHeader : String := "Public-Key-Pins"

def RPHeader : String := "Referrer-Policy"

def XContentTypeHeader : String := "X-Content-Type-Options"

def ServerHeader : String := "Server"

/-- `MaxIncidentResponseTime` constant: 30 days = 720 hours. -/
def MaxIncidentResponseTime : Int := 720

/-- `XContentTypeHeaderValue` constant. -/
def XContentTypeHeaderValue : String := "nosniff"

/-- `crypto/tls` protocol-version constants (`tls.VersionTLS10` etc.). -/
def VersionTLS10 : Nat := 769

def VersionTLS11 : Nat := 770

def VersionTLS12 : Nat := 771

/-- `CalculateProtocolScore`: score and message for a URL scheme.  The Go
function initialises the named return `score` to `-1` and only the
`http`/`https` branches overwrite it, so any other scheme yields `-1`
together with the message `"Protocol Not Found"`. -/
def CalculateProtocolScore (protocol : String) : Int × String :=
  if protocol = "http" then
    (0, "Website is unencrypted and hence subjective to Man-in-the-Middle attacks(MITM) and Eavesdropping Attacks.")
  else if protocol = "https" then
    (5, "From the protocol level, Website is secure.")
  else
    (-1, "Protocol Not Found")

/-- `getDefaultPort`: 443 for https, otherwise 80. -/
def getDefaultPort (protocol : String) : String :=
  if protocol = "https" then "443" else "80"

/-- `GetXSSScore`: score for the X-Xss-Protection header value, plus the
auxiliary report URL extracted from a `report=` suffix.  Mirrors
`TrimSpace`, the comparison with `"0"`, the `"1"` prefix test and
`strings.Split(v, "report=")` (whose length is 2 exactly when `report=`
occurs once). -/
def GetXSSScore (XSSValue : String) : Int × String :=
  let v := goTrim XSSValue
  let score : Int := if v = "0" then 0 else if goHasPrefix v "1" then 5 else 0
  let XSSReportURL : String :=
    match goSplit v "report=" with
    | [_, r] => r
    | _ => ""
  (score, XSSReportURL)

/-- `GetXFrameScore`: X-Frame-Options header score (value lower-cased and
trimmed): `deny`/`sameorigin` → 5, `allow-from` prefix → 4, else 0. -/
def GetXFrameScore (XFrameValue : String) : Int :=
  let v := goTrim (goToLower XFrameValue)
  if v = "deny" then 5
  else if v = "sameorigin" then 5
  else if goHasPrefix v "allow-from" then 4
  else 0

/-- `GetHSTSScore`: Strict-Transport-Security header score: `max-age`
prefix → 4, raised to 5 when the value also contains `includeSubDomains`
or `preload`; no `max-age` prefix → 0. -/
def GetHSTSScore (HSTS : String) : Int :=
  if goHasPrefix HSTS "max-age" then
    if goContains HSTS "includeSubDomains" || goContains HSTS "preload" then 5 else 4
  else 0

/-- `GetReferrerPolicyScore`: Referrer-Policy header score on the
lower-cased, trimmed value. -/
def GetReferrerPolicyScore (ReferrerPolicy : String) : Int :=
  let v := goTrim (goToLower ReferrerPolicy)
  if v = "no-referrer" then 5
  else if v = "no-referrer-when-downgrade" then 4
  else if v = "origin" then 4
  else if v = "origin-when-cross-origin" then 4
  else if v = "same-origin" then 4
  else if v = "strict-origin" then 4
  else if v = "strict-origin-when-cross-origin" then 4
  else if v = "unsafe-url" then 2
  else 0

/-- `GetXContentTypeScore`: 5 when the value equals `nosniff`
case-insensitively (`strings.EqualFold`), else 0. -/
def GetXContentTypeScore (XContentType : String) : Int :=
  if goEqualFold XContentType XContentTypeHeaderValue then 5 else 0

/-- `GetHTTPVersionScore`: `HTTP/2.0` → 5, `HTTP/1.1` → 2, else 0
(case-insensitive comparisons). -/
def GetHTTPVersionScore (Proto : String) : Int :=
  if goEqualFold Proto "HTTP/2.0" then 5
  else if goEqualFold Proto "HTTP/1.1" then 2
  else 0

/-- `GetTLSVersionScore`: TLS1.2 → 5, TLS1.1 → 3, TLS1.0 → 1, else 0. -/
def GetTLSVersionScore (Version : Nat) : Int :=
  if Version = VersionTLS12 then 5
  else if Version = VersionTLS11 then 3
  else if Version = VersionTLS10 then 1
  else 0

/-- The observable part of the HEAD response consumed by
`GetResponseHeaderScore`: the header map (each key canonical, multiple
values already joined with `,` as the Go loop does), `response.Proto`,
and the negotiated TLS version when `response.TLS != nil`. -/
structure HeadResponse where
  headers : List (String × String)
  proto : String
  tlsVersion : Option Nat
deriving DecidableEq

/-- Lookup in the joined header map (Go map indexing; keys are unique). -/
def lookupHeader (m : List (String × String)) (k : String) : Option String :=
  m.lookup k

/-- XSS slot of the header scorer: the Go code presets `score = 0` and
overwrites it with `GetXSSScore` only when the header is present. -/
def xssSlot (hm : List (String × String)) : Int × String :=
  match lookupHeader hm XSSHeader with
  | some v => GetXSSScore v
  | none => (0, "")

/-- X-Frame-Options slot (preset `score = 1`). -/
def xframeSlot (hm : List (String × String)) : Int :=
  match lookupHeader hm XFrameHeader with
  | some v => GetXFrameScore v
  | none => 1

/-- Strict-Transport-Security slot (preset `score = 2`). -/
def hstsSlot (hm : List (String × String)) : Int :=
  match lookupHeader hm HSTSHeader with
  | some v => GetHSTSScore v
  | none => 2

/-- Content-Security-Policy slot (presence alone scores 5; preset 3). -/
def cspSlot (hm : List (String × String)) : Int :=
  match lookupHeader hm CSPHeader with
  | some _ => 5
  | none => 3

/-- Public-Key-Pins slot (presence alone scores 5; preset 3). -/
def pkpSlot (hm : List (String × String)) : Int :=
  match lookupHeader hm PKPHeader with
  | some v => let _ := v; 5
  | none => 3

/-- Referrer-Policy slot (preset `score = 2`). -/
def rpSlot (hm : List (String × String)) : Int :=
  match lookupHeader hm RPHeader with
  | some v => GetReferrerPolicyScore v
  | none => 2

/-- X-Content-Type-Options slot (preset `score = 0`). -/
def xContentTypeSlot (hm : List (String × String)) : Int :=
  match lookupHeader hm XContentTypeHeader with
  | some v => GetXContentTypeScore v
  | none => 0

/-- TLS contribution: added only when `response.TLS != nil`; note that no
`maxScore` increment accompanies it in the Go code. -/
def tlsSlot (tlsVersion : Option Nat) : Int :=
  match tlsVersion with
  | some v => GetTLSVersionScore v
  | none => 0

/-- `GetResponseHeaderScore` on a successful probe: returns
`(totalScore, XSSReportURL, maxScore)`.  `totalScore` accumulates the
seven header slots plus the HTTP-version and TLS-version points exactly
as the Go statement sequence does; `maxScore` accumulates nine
unconditional `+ 5` increments (calculate.go lines 185, 191, 197, 203,
209, 215, 217, 223, 228) and therefore always equals 45 — the TLS-version
check has no matching increment.  The informational `Server` lookup does
not touch either total and is not modelled. -/
def GetResponseHeaderScoreOk (response : HeadResponse) : Int × String × Int :=
  let hm := response.headers
  let xss := xssSlot hm
  (xss.1 + xframeSlot hm + hstsSlot hm + cspSlot hm + pkpSlot hm + rpSlot hm
      + xContentTypeSlot hm + GetHTTPVersionScore response.proto
      + tlsSlot response.tlsVersion,
    xss.2, 45)

/-- `GetResponseHeaderScore`: a failed `utils.IsValidURL` check or HEAD
probe returns the error; otherwise the triple above. -/
def GetResponseHeaderScore (head : Except String HeadResponse) :
    Except String (Int × String × Int) :=
  match head with
  | .error e => .error e
  | .ok response => .ok (GetResponseHeaderScoreOk response)

/-! ### Mail-server configuration (SPF / DMARC) -/

/-- `bufio.Scanner` with `bufio.ScanLines` over a string: tokens are the
newline-separated lines, a trailing `\r` is stripped from each, the final
newline produces no empty trailing token, and empty input yields no
tokens. -/
def scanLines (s : String) : List String :=
  if s = "" then []
  else
    let parts := goSplit s "\n"
    let parts := if parts.getLast? = some "" then parts.dropLast else parts
    parts.map fun l => if goHasSuffix l "\r" then (⟨l.data.dropLast⟩ : String) else l

/-- `strings.TrimSpace(txtRecord[1 : len(txtRecord)-1])`: the surrounding
quote characters of a dig TXT output line are removed, then the record is
trimmed.  (Total here; the Go byte-slice would panic on a line shorter
than 2 bytes.) -/
def stripRecord (line : String) : String := goTrim ⟨(line.data.drop 1).dropLast⟩

/-- Loop body of `GetSPFScore`: accumulates `(totalScore, spfRecordCount)`
over one output line, following the `HasSuffix` chain of the Go loop. -/
def spfStep (acc : Int × Nat) (line : String) : Int × Nat :=
  let txtRecord := stripRecord line
  if goHasSuffix txtRecord "-all" then (acc.1 + 5, acc.2 + 1)
  else if goHasSuffix txtRecord "~all" then (acc.1 + 3, acc.2 + 1)
  else if goHasSuffix txtRecord "?all" then (acc.1 + 2, acc.2 + 1)
  else if goHasSuffix txtRecord "+all" then (acc.1, acc.2 + 1)
  else acc

/-- `GetSPFScore`, parameterised by the outcome of the `dig … txt` shell
command.  A command failure is only logged (`fmt.Println`) and the scan
proceeds over the empty captured output, so it degrades to `(0, 0)`;
`maxScore` is `spfRecordCount * 5`. -/
def GetSPFScore (digOut : Except String String) : Int × Int :=
  let txtRecords := match digOut with
    | .ok out => out
    | .error _ => ""
  let acc := (scanLines txtRecords).foldl spfStep (0, 0)
  (acc.1, (acc.2 : Int) * 5)

/-- Score extracted from a successful DMARC dig output: when the output is
longer than 2 characters, the first and last characters are removed, the
rest trimmed, and a `v=DMARC` prefix scores 5. -/
def dmarcScore (dmarcRecord : String) : Int :=
  if dmarcRecord.data.length > 2 then
    if goHasPrefix (goTrim ⟨(dmarcRecord.data.drop 1).dropLast⟩) "v=DMARC" then 5 else 0
  else 0

/-- `GetDMARCScore`, parameterised by the outcome of the
`dig +short TXT _dmarc.<domain>` command.  On a command failure the Go
code calls `log.Fatal`, terminating the process — modelled as an
`Except.error` that propagates to every caller. -/
def GetDMARCScore (digOut : Except String String) : Except String Int :=
  match digOut with
  | .error e => .error e
  | .ok dmarcRecord => .ok (dmarcScore dmarcRecord)

/-- `GetMailServerConfigurationScore`: strips a leading `www.` (via
`strings.Replace(host, "www.", "", -1)`, which removes every occurrence),
adds the SPF pair and the DMARC score, and always adds 5 to the maximum
for the DMARC check.  The DMARC abort propagates. -/
def GetMailServerConfigurationScore (host : String)
    (spfOut dmarcOut : Except String String) : Except String (Int × Int) :=
  let _ := if goHasPrefix host "www." then goReplaceAll host "www." "" else host
  let spf := GetSPFScore spfOut
  match GetDMARCScore dmarcOut with
  | .error e => .error e
  | .ok d => .ok (spf.1 + d, spf.2 + 5)

/-! ### Previous vulnerabilities (openbugbounty.org feed) -/

/-- One incident record, as consumed by `GetPreviousVulnerabilitiesScore`
(the `models.Incident` type is declared outside src/; the fields used
there are `Fixed`, `ReportedDate` and `FixedDate`).  The two RFC1123Z
date strings are modelled post-parse as nanoseconds since the epoch, the
unit in which Go's `time.Time.Sub` difference is carried. -/
structure Incident where
  fixed : Bool
  reportedDate : Int
  fixedDate : Int
deriving DecidableEq

/-- Nanoseconds per hour, relating a `time.Duration` to `Duration.Hours()`. -/
def nsPerHour : Int := 3600 * 1000000000

/-- Loop body of `GetPreviousVulnerabilitiesScore`: only `Fixed` incidents
score; `diff.Hours() > MaxIncidentResponseTime` (i.e. strictly more than
720 hours) awards 5, otherwise 10. -/
def incidentStep (acc : Int) (incident : Incident) : Int :=
  if incident.fixed then
    if incident.fixedDate - incident.reportedDate > MaxIncidentResponseTime * nsPerHour
    then acc + 5
    else acc + 10
  else acc

/-- `GetPreviousVulnerabilitiesScore`, parameterised by the outcome of the
feed fetch + XML unmarshal.  Any failure there hits `log.Fatalln`
(process termination, modelled as `Except.error`); on success the result
is `(totalScore, maxScore, incidentList)` with
`maxScore = len(incidents) * 10`. -/
def GetPreviousVulnerabilitiesScore (fetched : Except String (List Incident)) :
    Except String (Int × Int × List Incident) :=
  match fetched with
  | .error e => .error e
  | .ok incidentList =>
      .ok (incidentList.foldl incidentStep 0, (incidentList.length : Int) * 10, incidentList)

/-! ### Certificate summariser (src/models/certificate.go) -/

/-- The leaf-certificate fields extracted from a successful TLS dial
(issuer/subject common names, SANs, and the UTC-rendered validity
window), together with the remote IP — the data `serverCert` returns. -/
structure CertFields where
  issuerCommonName : String
  subjectCommonName : String
  dnsNames : List String
  notBefore : String
  notAfter : String
deriving DecidableEq

/-- `models.Cert`: the certificate summary (JSON fields of the Go struct;
the unexported `certChain` is not observable and not modelled). -/
structure Cert where
  domainName : String
  ip : String
  issuer : String
  commonName : String
  sans : List String
  notBefore : String
  notAfter : String
  error : String
deriving DecidableEq

/-- `net.SplitHostPort` for the address shapes reaching it here: splits at
the colon; no colon is a missing-port error and more than one colon
(an unbracketed IPv6 literal) is a too-many-colons error, both returning
empty host and port alongside the error. -/
def netSplitHostPort (hostport : String) : Except String (String × String) :=
  match goSplit hostport ":" with
  | [h, p] => .ok (h, p)
  | [_] => .error "missing port in address"
  | _ => .error "too many colons in address"

/-- `models.SplitHostPort`: no colon defaults the port to 443; otherwise
`net.SplitHostPort`, with an empty port also defaulted to 443. -/
def SplitHostPort (hostport : String) : Except String (String × String) :=
  if goContains hostport ":" = false then .ok (hostport, "443")
  else
    match netSplitHostPort hostport with
    | .error e => .error e
    | .ok (host, port) => .ok (host, if port = "" then "443" else port)

/-- `models.GetCertificate`, parameterised by the outcome of the TLS dial
(`serverCert`).  A host/port-parse failure or a dial/handshake failure
produces a summary carrying only the domain name and the error text; on
success all fields are filled from the leaf certificate.  Failures are
returned in-band in the `error` field — the function has no separate
error result. -/
def GetCertificate (hostport : String)
    (dial : Except String (CertFields × String)) : Cert :=
  match SplitHostPort hostport with
  | .error e =>
      { domainName := "", ip := "", issuer := "", commonName := "", sans := [],
        notBefore := "", notAfter := "", error := e }
  | .ok (host, _) =>
      match dial with
      | .error e =>
          { domainName := host, ip := "", issuer := "", commonName := "", sans := [],
            notBefore := "", notAfter := "", error := e }
      | .ok (c, ip) =>
          { domainName := host, ip := ip, issuer := c.issuerCommonName,
            commonName := c.subjectCommonName, sans := c.dnsNames,
            notBefore := c.notBefore, notAfter := c.notAfter, error := "" }

/-! ### Overall score aggregation -/

/-- The response assembled by `CalculateOverallScore`.  Modelled from the
spec: the `models.GetScores`/`models.GetScoresResponse` constructors live
outside src/; per the spec's `OverallScore`/`ComputeScore` interface the
response carries the normalized score, the achieved and maximum totals,
the message list and the certificate summary.  (`score` and
`maximumScore` are exactly the values calculate.go computes and logs
before normalizing; the informational `ServerDetail` is omitted.) -/
structure ScoreResponse where
  scoresURL : String
  score : Int
  maximumScore : Int
  totalScore : ℚ
  messages : List String
  cert : Cert
deriving DecidableEq

/-- The external observations one scoring run consumes:
`url.Parse` outcome as `(Scheme, Host)`, the HEAD-probe outcome, the two
dig outputs, and the TLS-dial outcome. -/
structure Env where
  parsed : Except String (String × String)
  head : Except String HeadResponse
  spfOut : Except String String
  dmarcOut : Except String String
  dial : Except String (CertFields × String)

/-- `math.Ceil((float64(score)/float64(maximumScore))*100) / 100`,
modelled exactly over `ℚ`. -/
def normalize (score maximumScore : Int) : ℚ :=
  ((⌈((score : ℚ) / (maximumScore : ℚ)) * 100⌉ : ℤ) : ℚ) / 100

/-- `CalculateOverallScore`: parses the URL, splits host and port (a
split error is ignored, leaving both empty), scores the protocol, the
response headers and the mail-server configuration, normalizes, fetches
the certificate summary and assembles the response.  An unparsable URL or
a failed header probe returns the error; the DMARC `log.Fatal` abort
propagates from the mail-server step.  The Go call site reads
`models.GetCertificate` with a separate error result, but the function in
src/models/certificate.go reports all failures in-band inside the
summary, so the `error != nil` early return cannot fire and the
summary (here obtained from the joined `host:port`) is always attached. -/
def CalculateOverallScore (scoresURL : String) (env : Env) :
    Except String ScoreResponse :=
  match env.parsed with
  | .error e => .error e
  | .ok (protocol, domainHost) =>
    let hp : String × String :=
      if goContains domainHost ":" then
        match netSplitHostPort domainHost with
        | .ok x => x
        | .error _ => ("", "")
      else (domainHost, "")
    let host := hp.1
    let port := if hp.2 = "" then getDefaultPort protocol else hp.2
    let protocolPair := CalculateProtocolScore protocol
    let messages := [protocolPair.2]
    match GetResponseHeaderScore env.head with
    | .error e => .error e
    | .ok (headerScore, _, maxScore) =>
      match GetMailServerConfigurationScore host env.spfOut env.dmarcOut with
      | .error e => .error e
      | .ok (mailServerScore, mailMax) =>
        let score := protocolPair.1 + headerScore + mailServerScore
        let maximumScore := 5 + maxScore + mailMax
        let totalScore := normalize score maximumScore
        let certificates := GetCertificate (host ++ ":" ++ port) env.dial
        .ok { scoresURL := scoresURL, score := score, maximumScore := maximumScore,
              totalScore := totalScore, messages := messages, cert := certificates }

/-- Projection used to state concrete results:
`(achievedTotal, maxTotal)` of a successful run. -/
def resultTotals (x : Except String ScoreResponse) : Option (Int × Int) :=
  x.toOption.map fun r => (r.score, r.maximumScore)

/-- The normalized score of a successful run. -/
def resultNormalized (x : Except String ScoreResponse) : Option ℚ :=
  x.toOption.map fun r => r.totalScore

/-- The certificate summary of a successful run. -/
def resultCert (x : Except String ScoreResponse) : Option Cert :=
  x.toOption.map fun r => r.cert

/-- The message list of a successful run. -/
def resultMessages (x : Except String ScoreResponse) : Option (List String) :=
  x.toOption.map fun r => r.messages

/-- The run completed and its normalized score lies in `[0, 1]`. -/
def normalizedInUnitInterval (x : Except String ScoreResponse) : Prop :=
  match x with
  | .ok r => 0 ≤ r.totalScore ∧ r.totalScore ≤ 1
  | .error _ => False

/-! ### Characterisations and bounds -/

/-- Per-record SPF points, read off the `HasSuffix` chain of the Go loop:
`-all` → 5, `~all` → 3, `?all` → 2, anything else (including `+all`) → 0. -/
def spfRecordPoints (record : String) : Int :=
  if goHasSuffix record "-all" then 5
  else if goHasSuffix record "~all" then 3
  else if goHasSuffix record "?all" then 2
  else 0

/-- Whether a record counts toward `spfRecordCount` (ends in one of the
four `all` qualifiers). -/
def spfQualifying (record : String) : Bool :=
  goHasSuffix record "-all" || goHasSuffix record "~all"
    || goHasSuffix record "?all" || goHasSuffix record "+all"

lemma spf_foldl (lines : List String) (acc : Int × Nat) :
    lines.foldl spfStep acc
      = (acc.1 + ((lines.map fun l => spfRecordPoints (stripRecord l)).sum),
         acc.2 + lines.countP (fun l => spfQualifying (stripRecord l))) := by
  induction lines generalizing acc with
  | nil => simp
  | cons hd tl ih =>
      rw [List.foldl_cons, ih]
      simp only [spfStep, spfRecordPoints, spfQualifying, List.map_cons, List.sum_cons,
        List.countP_cons]
      split_ifs <;> simp_all <;> omega

lemma GetSPFScore_ok (s : String) :
    GetSPFScore (.ok s)
      = ((((scanLines s).map fun l => spfRecordPoints (stripRecord l)).sum),
         (((scanLines s).countP fun l => spfQualifying (stripRecord l) : Nat) : Int) * 5) := by
  simp only [GetSPFScore, spf_foldl]
  simp

lemma spfRecordPoints_nonneg (r : String) : 0 ≤ spfRecordPoints r := by
  unfold spfRecordPoints; split_ifs <;> norm_num

lemma spfRecordPoints_le (r : String) :
    spfRecordPoints r ≤ if spfQualifying r then 5 else 0 := by
  unfold spfRecordPoints spfQualifying
  split_ifs <;> simp_all

lemma spf_sum_nonneg (lines : List String) :
    0 ≤ ((lines.map fun l => spfRecordPoints (stripRecord l)).sum) := by
  induction lines with
  | nil => simp
  | cons hd tl ih =>
      simp only [List.map_cons, List.sum_cons]
      have := spfRecordPoints_nonneg (stripRecord hd)
      omega

lemma spf_sum_le (lines : List String) :
    ((lines.map fun l => spfRecordPoints (stripRecord l)).sum)
      ≤ ((lines.countP fun l => spfQualifying (stripRecord l) : Nat) : Int) * 5 := by
  induction lines with
  | nil => simp
  | cons hd tl ih =>
      simp only [List.map_cons, List.sum_cons, List.countP_cons]
      have h := spfRecordPoints_le (stripRecord hd)
      split_ifs at h <;> simp_all <;> omega

lemma GetSPFScore_bounds (o : Except String String) :
    0 ≤ (GetSPFScore o).1 ∧ (GetSPFScore o).1 ≤ (GetSPFScore o).2
      ∧ 0 ≤ (GetSPFScore o).2 := by
  rcases o with e | s
  · exact ⟨le_refl 0, le_refl 0, le_refl 0⟩
  · rw [GetSPFScore_ok]
    refine ⟨spf_sum_nonneg _, spf_sum_le _, ?_⟩
    positivity

lemma dmarcScore_cases (d : String) : dmarcScore d = 0 ∨ dmarcScore d = 5 := by
  unfold dmarcScore; split_ifs <;> simp

/-- Per-incident points, read off the Go loop body. -/
def incidentPoints (incident : Incident) : Int :=
  if incident.fixed then
    if incident.fixedDate - incident.reportedDate > MaxIncidentResponseTime * nsPerHour
    then 5
    else 10
  else 0

lemma incident_foldl (l : List Incident) (acc : Int) :
    l.foldl incidentStep acc = acc + (l.map incidentPoints).sum := by
  induction l generalizing acc with
  | nil => simp
  | cons hd tl ih =>
      rw [List.foldl_cons, ih]
      simp only [incidentStep, incidentPoints, List.map_cons, List.sum_cons]
      split_ifs <;> omega

/-! Bounds for the individual header checks. -/

lemma GetXSSScore_fst_bounds (v : String) :
    0 ≤ (GetXSSScore v).1 ∧ (GetXSSScore v).1 ≤ 5 := by
  unfold GetXSSScore; dsimp only; split_ifs <;> norm_num

lemma GetXFrameScore_bounds (v : String) :
    0 ≤ GetXFrameScore v ∧ GetXFrameScore v ≤ 5 := by
  unfold GetXFrameScore; dsimp only; split_ifs <;> norm_num

lemma GetHSTSScore_bounds (v : String) :
    0 ≤ GetHSTSScore v ∧ GetHSTSScore v ≤ 5 := by
  unfold GetHSTSScore; split_ifs <;> norm_num

lemma GetReferrerPolicyScore_bounds (v : String) :
    0 ≤ GetReferrerPolicyScore v ∧ GetReferrerPolicyScore v ≤ 5 := by
  unfold GetReferrerPolicyScore; dsimp only; split_ifs <;> norm_num

lemma GetXContentTypeScore_bounds (v : String) :
    0 ≤ GetXContentTypeScore v ∧ GetXContentTypeScore v ≤ 5 := by
  unfold GetXContentTypeScore; split_ifs <;> norm_num

lemma GetHTTPVersionScore_bounds (v : String) :
    0 ≤ GetHTTPVersionScore v ∧ GetHTTPVersionScore v ≤ 5 := by
  unfold GetHTTPVersionScore; split_ifs <;> norm_num

lemma GetTLSVersionScore_bounds (v : Nat) :
    0 ≤ GetTLSVersionScore v ∧ GetTLSVersionScore v ≤ 5 := by
  unfold GetTLSVersionScore; split_ifs <;> norm_num

lemma xssSlot_bounds (hm : List (String × String)) :
    0 ≤ (xssSlot hm).1 ∧ (xssSlot hm).1 ≤ 5 := by
  unfold xssSlot
  cases lookupHeader hm XSSHeader with
  | none => norm_num
  | some v => exact GetXSSScore_fst_bounds v

lemma xframeSlot_bounds (hm : List (String × String)) :
    0 ≤ xframeSlot hm ∧ xframeSlot hm ≤ 5 := by
  unfold xframeSlot
  cases lookupHeader hm XFrameHeader with
  | none => norm_num
  | some v => exact GetXFrameScore_bounds v

lemma hstsSlot_bounds (hm : List (String × String)) :
    0 ≤ hstsSlot hm ∧ hstsSlot hm ≤ 5 := by
  unfold hstsSlot
  cases lookupHeader hm HSTSHeader with
  | none => norm_num
  | some v => exact GetHSTSScore_bounds v

lemma cspSlot_bounds (hm : List (String × String)) :
    0 ≤ cspSlot hm ∧ cspSlot hm ≤ 5 := by
  unfold cspSlot
  cases lookupHeader hm CSPHeader with
  | none => norm_num
  | some v => norm_num

lemma pkpSlot_bounds (hm : List (String × String)) :
    0 ≤ pkpSlot hm ∧ pkpSlot hm ≤ 5 := by
  unfold pkpSlot
  cases lookupHeader hm PKPHeader with
  | none => norm_num
  | some v => norm_num

lemma rpSlot_bounds (hm : List (String × String)) :
    0 ≤ rpSlot hm ∧ rpSlot hm ≤ 5 := by
  unfold rpSlot
  cases lookupHeader hm RPHeader with
  | none => norm_num
  | some v => exact GetReferrerPolicyScore_bounds v

lemma xContentTypeSlot_bounds (hm : List (String × String)) :
    0 ≤ xContentTypeSlot hm ∧ xContentTypeSlot hm ≤ 5 := by
  unfold xContentTypeSlot
  cases lookupHeader hm XContentTypeHeader with
  | none => norm_num
  | some v => exact GetXContentTypeScore_bounds v

lemma tlsSlot_bounds (t : Option Nat) : 0 ≤ tlsSlot t ∧ tlsSlot t ≤ 5 := by
  unfold tlsSlot
  cases t with
  | none => norm_num
  | some v => exact GetTLSVersionScore_bounds v

lemma headerOk_max (r : HeadResponse) : (GetResponseHeaderScoreOk r).2.2 = 45 := rfl

lemma headerOk_total_bounds (r : HeadResponse) :
    0 ≤ (GetResponseHeaderScoreOk r).1 ∧ (GetResponseHeaderScoreOk r).1 ≤ 45 := by
  have h1 := xssSlot_bounds r.headers
  have h2 := xframeSlot_bounds r.headers
  have h3 := hstsSlot_bounds r.headers
  have h4 := cspSlot_bounds r.headers
  have h5 := pkpSlot_bounds r.headers
  have h6 := rpSlot_bounds r.headers
  have h7 := xContentTypeSlot_bounds r.headers
  have h8 := GetHTTPVersionScore_bounds r.proto
  have h9 := tlsSlot_bounds r.tlsVersion
  unfold GetResponseHeaderScoreOk
  dsimp only
  omega

/-! Normalization bounds and concrete values. -/

lemma normalize_bounds (s m : Int) (h0 : 0 ≤ s) (h1 : s ≤ m) (h2 : 0 < m) :
    0 ≤ normalize s m ∧ normalize s m ≤ 1 := by
  unfold normalize
  have hm : (0:ℚ) < (m:ℚ) := by exact_mod_cast h2
  have hs : (0:ℚ) ≤ (s:ℚ) := by exact_mod_cast h0
  have hq0 : 0 ≤ ((s:ℚ)/(m:ℚ)) * 100 := by positivity
  have hq1 : ((s:ℚ)/(m:ℚ)) * 100 ≤ 100 := by
    have hd : (s:ℚ)/(m:ℚ) ≤ 1 := by
      rw [div_le_one hm]; exact_mod_cast h1
    nlinarith
  constructor
  · apply div_nonneg _ (by norm_num)
    exact_mod_cast Int.ceil_nonneg hq0
  · rw [div_le_one (by norm_num)]
    have h100 : ⌈((s:ℚ)/(m:ℚ)) * 100⌉ ≤ (100:ℤ) := Int.ceil_le.mpr (by exact_mod_cast hq1)
    exact_mod_cast h100

lemma normalize_33_55 : normalize 33 55 = 3/5 := by
  unfold normalize
  have hc : ⌈((((33:ℤ)):ℚ)/(((55:ℤ)):ℚ))*100⌉ = (60:ℤ) := by
    rw [Int.ceil_eq_iff]
    norm_num
  rw [hc]
  norm_num

/-- The value a run with a parsed URL, a successful HEAD probe and a
successful DMARC lookup produces: protocol + header + mail points over a
maximum of `5 + 45 + (spfMax + 5)`, the normalization of that pair, the
protocol message, and the certificate summary. -/
lemma CalculateOverallScore_ok_shape (u p dh d : String) (resp : HeadResponse)
    (se : Except String String) (dial : Except String (CertFields × String)) :
    CalculateOverallScore u ⟨.ok (p, dh), .ok resp, se, .ok d, dial⟩
      = .ok { scoresURL := u,
              score := (CalculateProtocolScore p).1 + (GetResponseHeaderScoreOk resp).1
                        + ((GetSPFScore se).1 + dmarcScore d),
              maximumScore := 5 + 45 + ((GetSPFScore se).2 + 5),
              totalScore := normalize
                ((CalculateProtocolScore p).1 + (GetResponseHeaderScoreOk resp).1
                  + ((GetSPFScore se).1 + dmarcScore d))
                (5 + 45 + ((GetSPFScore se).2 + 5)),
              messages := [(CalculateProtocolScore p).2],
              cert := GetCertificate
                ((if goContains dh ":" then
                    match netSplitHostPort dh with
                    | .ok x => x
                    | .error _ => ("", "")
                  else (dh, "")).1 ++ ":" ++
                  (if (if goContains dh ":" then
                        match netSplitHostPort dh with
                        | .ok x => x
                        | .error _ => ("", "")
                      else (dh, "")).2 = "" then getDefaultPort p
                   else (if goContains dh ":" then
                        match netSplitHostPort dh with
                        | .ok x => x
                        | .error _ => ("", "")
                      else (dh, "")).2)) dial } := rfl

lemma goHasSuffix_eq_of_same_length (r a b : String) (hl : a.data.length = b.data.length)
    (ha : goHasSuffix r a = true) (hb : goHasSuffix r b = true) : a = b := by
  unfold goHasSuffix at ha hb
  have ha2 := List.isSuffixOf_iff_suffix.mp ha
  have hb2 := List.isSuffixOf_iff_suffix.mp hb
  have hd : a.data = b.data := by
    rcases List.suffix_or_suffix_of_suffix ha2 hb2 with h | h
    · exact List.IsSuffix.eq_of_length h hl
    · exact (List.IsSuffix.eq_of_length h hl.symm).symm
  rcases a with ⟨ad⟩
  rcases b with ⟨bd⟩
  exact congrArg String.mk (by simpa using hd)

lemma goHasSuffix_excl (r a b : String) (hl : a.data.length = b.data.length)
    (hne : ¬ a = b) (hb : goHasSuffix r b = true) : goHasSuffix r a = false := by
  cases hx : goHasSuffix r a
  · rfl
  · exact absurd (goHasSuffix_eq_of_same_length r a b hl hx hb) hne

lemma incidentPoints_bounds (i : Incident) :
    0 ≤ incidentPoints i ∧ incidentPoints i ≤ 10 := by
  unfold incidentPoints; split_ifs <;> norm_num

lemma incident_sum_bounds (l : List Incident) :
    0 ≤ (l.map incidentPoints).sum ∧ (l.map incidentPoints).sum ≤ (l.length : Int) * 10 := by
  induction l with
  | nil => simp
  | cons hd tl ih =>
      simp only [List.map_cons, List.sum_cons, List.length_cons]
      have h := incidentPoints_bounds hd
      push_cast
      constructor <;> nlinarith [ih.1, ih.2, h.1, h.2]

/-! ### Concrete inputs used by the claims -/

/-- The spec's scenario HEAD response: exactly `X-Frame-Options: DENY` and
`Strict-Transport-Security: max-age=31536000; includeSubDomains`,
HTTP/2.0 over TLS 1.2. -/
def scenarioHead : HeadResponse :=
  ⟨[(XFrameHeader, "DENY"), (HSTSHeader, "max-age=31536000; includeSubDomains")],
   "HTTP/2.0", some VersionTLS12⟩

/-- The spec's scenario environment: scheme https, the scenario HEAD
response, no SPF TXT records and no DMARC record. -/
def scenarioEnv : Env :=
  ⟨.ok ("https", "example.com"), .ok scenarioHead, .ok "", .ok "", .error "tls dial skipped"⟩

/-- A fixed incident whose remediation time is exactly the 720-hour
threshold. -/
def boundaryIncident : Incident := ⟨true, 0, MaxIncidentResponseTime * nsPerHour⟩

/-! ### The claims -/

/-- Claim C1, as stated, is false: on the spec's scenario (https scheme,
exactly X-Frame-Options DENY and HSTS max-age=31536000; includeSubDomains,
HTTP/2.0 over TLS 1.2, no SPF/DMARC records) the aggregation yields
achievedTotal 33 and maxTotal 55, not the claimed 34 and 50. -/
theorem C1_counterexample :
    resultTotals (CalculateOverallScore "https://example.com" scenarioEnv) = some (33, 55)
      ∧ ¬ resultTotals (CalculateOverallScore "https://example.com" scenarioEnv)
          = some (34, 50) := by
  constructor
  · decide
  · decide

/-- Claim C1 (amended): on the scenario the aggregation yields
achievedTotal = 33 (the absent X-Xss-Protection header defaults to 0,
not 1), maxTotal = 55 (the header scorer's maximum is 45 — nine
unconditional 5-point slots, the TLS-version check adding none — plus 5
for the protocol and 5 for the always-counted DMARC check), and
normalized = ceil((33/55)*100)/100 = 0.6. -/
theorem C1_amended :
    resultTotals (CalculateOverallScore "https://example.com" scenarioEnv) = some (33, 55)
      ∧ resultNormalized (CalculateOverallScore "https://example.com" scenarioEnv)
          = some (3/5) := by
  constructor
  · decide
  · have h1 : resultNormalized (CalculateOverallScore "https://example.com" scenarioEnv)
        = some (normalize 33 55) := rfl
    rw [h1, normalize_33_55]

/-- Claim C2, as stated, is false for unrecognised schemes: the protocol
scorer returns an achieved value of -1 (not 0) together with
"Protocol Not Found", and the aggregation still counts the protocol
check's 5 points in maxTotal (the scenario headers with scheme ftp give
totals (27, 55) = (-1 + 28 + 0, 5 + 45 + 5), not a 50 maximum). -/
theorem C2_counterexample :
    CalculateProtocolScore "ftp" = (-1, "Protocol Not Found")
      ∧ ¬ (CalculateProtocolScore "ftp").1 = 0
      ∧ resultTotals (CalculateOverallScore "ftp://example.com"
          ⟨.ok ("ftp", "example.com"), .ok scenarioHead, .ok "", .ok "", .error "u"⟩)
          = some (27, 55) := by
  refine ⟨by decide, by decide, by decide⟩

/-- Claim C2 (amended): https → 5 with the secure message and http → 0
with the MITM/eavesdropping message; every other scheme (including the
empty one) yields score -1 with only the message "Protocol Not Found",
and the aggregation adds that -1 to achievedTotal while the protocol
check's 5-point maximum is included in maxTotal unconditionally. -/
theorem C2_amended (p : String) (h1 : ¬ p = "http") (h2 : ¬ p = "https") :
    CalculateProtocolScore "https" = (5, "From the protocol level, Website is secure.")
      ∧ CalculateProtocolScore "http"
          = (0, "Website is unencrypted and hence subjective to Man-in-the-Middle attacks(MITM) and Eavesdropping Attacks.")
      ∧ CalculateProtocolScore p = (-1, "Protocol Not Found")
      ∧ ∀ (u dh d : String) (resp : HeadResponse) (se : Except String String)
          (dial : Except String (CertFields × String)),
          resultTotals (CalculateOverallScore u ⟨.ok (p, dh), .ok resp, se, .ok d, dial⟩)
            = some ((-1) + (GetResponseHeaderScoreOk resp).1
                      + ((GetSPFScore se).1 + dmarcScore d),
                    5 + 45 + ((GetSPFScore se).2 + 5)) := by
  have hp : CalculateProtocolScore p = (-1, "Protocol Not Found") := by
    unfold CalculateProtocolScore
    rw [if_neg h1, if_neg h2]
  refine ⟨rfl, rfl, hp, ?_⟩
  intro u dh d resp se dial
  rw [CalculateOverallScore_ok_shape]
  simp [resultTotals, Except.toOption, hp]

/-- Witness for C2 (amended) at the concrete scheme "ftp". -/
theorem C2_witness :
    (¬ "ftp" = "http") ∧ (¬ "ftp" = "https")
      ∧ CalculateProtocolScore "ftp" = (-1, "Protocol Not Found") :=
  ⟨by decide, by decide, (C2_amended "ftp" (by decide) (by decide)).2.2.1⟩

/-- Claim C3, as stated, is false: for the scheme "gopher" the protocol
scorer's achieved value is -1, which is negative. -/
theorem C3_counterexample :
    (CalculateProtocolScore "gopher").1 = -1
      ∧ ¬ 0 ≤ (CalculateProtocolScore "gopher").1 := by
  refine ⟨by decide, by decide⟩

/-- Claim C3 (amended): the per-scorer invariant 0 ≤ achieved ≤ maximum
holds for the protocol scorer restricted to the schemes http and https
(for any other scheme it returns -1), and unconditionally for the header
scorer (total within its returned maximum 45), the SPF scorer, the DMARC
score (at most its 5-point maximum) and the incident scorer (total within
10 × incident count). -/
theorem C3_amended (p : String) (hp : p = "http" ∨ p = "https") (r : HeadResponse)
    (o : Except String String) (d : String) (l : List Incident) :
    (0 ≤ (CalculateProtocolScore p).1 ∧ (CalculateProtocolScore p).1 ≤ 5)
      ∧ (0 ≤ (GetResponseHeaderScoreOk r).1
          ∧ (GetResponseHeaderScoreOk r).1 ≤ (GetResponseHeaderScoreOk r).2.2)
      ∧ (0 ≤ (GetSPFScore o).1 ∧ (GetSPFScore o).1 ≤ (GetSPFScore o).2)
      ∧ (0 ≤ dmarcScore d ∧ dmarcScore d ≤ 5)
      ∧ (GetPreviousVulnerabilitiesScore (.ok l)
            = .ok (l.foldl incidentStep 0, (l.length : Int) * 10, l)
          ∧ 0 ≤ l.foldl incidentStep 0
          ∧ l.foldl incidentStep 0 ≤ (l.length : Int) * 10) := by
  refine ⟨?_, ?_, ?_, ?_, rfl, ?_, ?_⟩
  · rcases hp with h | h <;> subst h <;> exact ⟨by decide, by decide⟩
  · rw [headerOk_max]; exact headerOk_total_bounds r
  · exact ⟨(GetSPFScore_bounds o).1, (GetSPFScore_bounds o).2.1⟩
  · rcases dmarcScore_cases d with h | h <;> rw [h] <;> exact ⟨by decide, by decide⟩
  · rw [incident_foldl]; simpa using (incident_sum_bounds l).1
  · rw [incident_foldl]; simpa using (incident_sum_bounds l).2

/-- Witness for C3 (amended) at scheme https, an empty header response,
empty dig outputs and no incidents. -/
theorem C3_witness :
    ("https" = "http" ∨ "https" = "https")
      ∧ 0 ≤ (CalculateProtocolScore "https").1
      ∧ (CalculateProtocolScore "https").1 ≤ 5 :=
  ⟨Or.inr rfl,
   (C3_amended "https" (Or.inr rfl) ⟨[], "", none⟩ (.ok "") "" []).1.1,
   (C3_amended "https" (Or.inr rfl) ⟨[], "", none⟩ (.ok "") "" []).1.2⟩

/-- Claim C4, as stated, is false on the absent-header case: when
X-Xss-Protection is missing the check contributes 0, not 1 (the preset
1 belongs to the X-Frame-Options check); a header-free response scores
11 = 0+1+2+3+3+2+0 overall, not 12. -/
theorem C4_counterexample :
    xssSlot [] = (0, "")
      ∧ ¬ (xssSlot ([] : List (String × String))).1 = 1
      ∧ (GetResponseHeaderScoreOk ⟨[], "", none⟩).1 = 11 := by
  refine ⟨by decide, by decide, by decide⟩

/-- Claim C4 (amended): the XSS check contributes 0 of 5 when the header
is absent, 0 of 5 when the trimmed value equals "0", and 5 of 5 when the
trimmed value starts with "1"; the score is a function of those two tests
alone, so a report= suffix never changes it, and when the trimmed value
splits as `a ++ "report=" ++ b` the suffix b is returned as the auxiliary
report URL. -/
theorem C4_amended (hm : List (String × String)) (v a b : String)
    (habsent : lookupHeader hm XSSHeader = none)
    (hsplit : goSplit (goTrim v) "report=" = [a, b]) :
    (xssSlot hm).1 = 0
      ∧ ((GetXSSScore v).1
          = if goTrim v = "0" then 0 else if goHasPrefix (goTrim v) "1" then 5 else 0)
      ∧ (goTrim v = "0" → (GetXSSScore v).1 = 0)
      ∧ (goHasPrefix (goTrim v) "1" = true → (GetXSSScore v).1 = 5)
      ∧ (GetXSSScore v).2 = b := by
  refine ⟨?_, rfl, ?_, ?_, ?_⟩
  · unfold xssSlot; rw [habsent]
  · intro h0
    unfold GetXSSScore
    simp only [h0]
    decide
  · intro h1
    have h0 : ¬ goTrim v = "0" := by
      intro hx
      rw [hx] at h1
      exact absurd h1 (by decide)
    unfold GetXSSScore
    simp only [if_neg h0, h1, if_pos]
  · unfold GetXSSScore
    simp only [hsplit]

/-- Witness for C4 (amended): no headers, and the value
"1; mode=block; report=https://r.example/x". -/
theorem C4_witness :
    lookupHeader ([] : List (String × String)) XSSHeader = none
      ∧ goSplit (goTrim "1; mode=block; report=https://r.example/x") "report="
          = ["1; mode=block; ", "https://r.example/x"]
      ∧ (GetXSSScore "1; mode=block; report=https://r.example/x").1 = 5
      ∧ (GetXSSScore "1; mode=block; report=https://r.example/x").2
          = "https://r.example/x" :=
  ⟨rfl, by decide,
   (C4_amended [] "1; mode=block; report=https://r.example/x"
      "1; mode=block; " "https://r.example/x" rfl (by decide)).2.2.2.1 (by decide),
   (C4_amended [] "1; mode=block; report=https://r.example/x"
      "1; mode=block; " "https://r.example/x" rfl (by decide)).2.2.2.2⟩

/-- Claim C5, as stated, is false for DMARC and the incident feed: a
failed DMARC dig or incident-feed fetch hits log.Fatal (the computation
terminates with no result) instead of contributing zero; in particular a
run whose DMARC lookup fails produces no score response at all. -/
theorem C5_counterexample :
    (GetDMARCScore (.error "dig failed")).toOption = none
      ∧ (GetPreviousVulnerabilitiesScore (.error "fetch failed")).toOption = none
      ∧ (CalculateOverallScore "https://example.com"
          ⟨.ok ("https", "example.com"), .ok scenarioHead, .ok "",
            .error "dig failed", .error "u"⟩).toOption = none := by
  refine ⟨rfl, rfl, rfl⟩

/-- Claim C5 (amended): only the SPF lookup degrades gracefully — on
failure it contributes (0, 0) and the overall computation still completes
with the remaining totals — whereas a DMARC lookup failure or an
incident-feed failure terminates the process (log.Fatal), the former
taking the whole score computation down with it. -/
theorem C5_amended (e : String) :
    GetSPFScore (.error e) = (0, 0)
      ∧ resultTotals (CalculateOverallScore "https://example.com"
          ⟨.ok ("https", "example.com"), .ok scenarioHead, .error e, .ok "",
            .error "u"⟩) = some (33, 55)
      ∧ GetDMARCScore (.error e) = .error e
      ∧ GetPreviousVulnerabilitiesScore (.error e) = .error e
      ∧ (CalculateOverallScore "https://example.com"
          ⟨.ok ("https", "example.com"), .ok scenarioHead, .ok "", .error e,
            .error "u"⟩).toOption = none := by
  refine ⟨rfl, rfl, rfl, rfl, rfl⟩

/-- Claim C6: a TLS dial or handshake failure is not fatal — the
certificate routine returns a summary carrying only the domain name and
the error text (every other field empty), and the overall run still
completes, its response carrying that summary. -/
theorem C6_holds (hostport host port e : String)
    (h : SplitHostPort hostport = .ok (host, port)) :
    GetCertificate hostport (.error e)
      = { domainName := host, ip := "", issuer := "", commonName := "", sans := [],
          notBefore := "", notAfter := "", error := e }
      ∧ resultCert (CalculateOverallScore "https://example.com"
          ⟨.ok ("https", "example.com"), .ok scenarioHead, .ok "", .ok "", .error e⟩)
        = some { domainName := "example.com", ip := "", issuer := "", commonName := "",
                 sans := [], notBefore := "", notAfter := "", error := e }
      ∧ (CalculateOverallScore "https://example.com"
          ⟨.ok ("https", "example.com"), .ok scenarioHead, .ok "", .ok "",
            .error e⟩).toOption.isSome = true := by
  refine ⟨?_, rfl, rfl⟩
  unfold GetCertificate
  rw [h]

/-- Witness for C6 at example.com:443 and a dial timeout. -/
theorem C6_witness :
    SplitHostPort "example.com:443" = .ok ("example.com", "443")
      ∧ GetCertificate "example.com:443" (.error "dial tcp: i/o timeout")
        = { domainName := "example.com", ip := "", issuer := "", commonName := "",
            sans := [], notBefore := "", notAfter := "",
            error := "dial tcp: i/o timeout" } :=
  ⟨rfl, (C6_holds "example.com:443" "example.com" "443"
      "dial tcp: i/o timeout" rfl).1⟩

/-- Claim C7: for every dig TXT output, the SPF scorer's total is the sum
of per-record points over the (quote-stripped, trimmed) records and its
maximum is 5 times the number of qualifying records; per record, a
"-all"/"~all"/"?all"/"+all" suffix is worth 5/3/2/0 points respectively
and counts toward the maximum, while a record with none of the four
suffixes contributes to neither. -/
theorem C7_holds (digOut : String) :
    GetSPFScore (.ok digOut)
      = ((((scanLines digOut).map fun l => spfRecordPoints (stripRecord l)).sum),
         (((scanLines digOut).countP fun l => spfQualifying (stripRecord l) : Nat) : Int) * 5)
      ∧ ∀ record : String,
          (goHasSuffix record "-all" = true →
            spfRecordPoints record = 5 ∧ spfQualifying record = true)
          ∧ (goHasSuffix record "~all" = true →
            spfRecordPoints record = 3 ∧ spfQualifying record = true)
          ∧ (goHasSuffix record "?all" = true →
            spfRecordPoints record = 2 ∧ spfQualifying record = true)
          ∧ (goHasSuffix record "+all" = true →
            spfRecordPoints record = 0 ∧ spfQualifying record = true)
          ∧ (spfQualifying record = false → spfRecordPoints record = 0) := by
  refine ⟨GetSPFScore_ok digOut, ?_⟩
  intro record
  refine ⟨?_, ?_, ?_, ?_, ?_⟩
  · intro h
    constructor
    · unfold spfRecordPoints; rw [if_pos h]
    · unfold spfQualifying; rw [h]; rfl
  · intro h
    have hm : goHasSuffix record "-all" = false :=
      goHasSuffix_excl record "-all" "~all" (by decide) (by decide) h
    constructor
    · unfold spfRecordPoints; rw [if_neg (by simp [hm]), if_pos h]
    · unfold spfQualifying; rw [h]; simp
  · intro h
    have hm : goHasSuffix record "-all" = false :=
      goHasSuffix_excl record "-all" "?all" (by decide) (by decide) h
    have ht : goHasSuffix record "~all" = false :=
      goHasSuffix_excl record "~all" "?all" (by decide) (by decide) h
    constructor
    · unfold spfRecordPoints
      rw [if_neg (by simp [hm]), if_neg (by simp [ht]), if_pos h]
    · unfold spfQualifying; rw [h]; simp
  · intro h
    have hm : goHasSuffix record "-all" = false :=
      goHasSuffix_excl record "-all" "+all" (by decide) (by decide) h
    have ht : goHasSuffix record "~all" = false :=
      goHasSuffix_excl record "~all" "+all" (by decide) (by decide) h
    have hq : goHasSuffix record "?all" = false :=
      goHasSuffix_excl record "?all" "+all" (by decide) (by decide) h
    constructor
    · unfold spfRecordPoints
      rw [if_neg (by simp [hm]), if_neg (by simp [ht]), if_neg (by simp [hq])]
    · unfold spfQualifying; rw [h]; simp
  · intro h
    unfold spfQualifying at h
    simp only [Bool.or_eq_false_iff] at h
    unfold spfRecordPoints
    rw [if_neg (by simp [h.1.1.1]), if_neg (by simp [h.1.1.2]), if_neg (by simp [h.1.2])]

/-- Witness for C7 on a strict-fail record. -/
theorem C7_witness :
    goHasSuffix "v=spf1 include:m.example -all" "-all" = true
      ∧ spfRecordPoints "v=spf1 include:m.example -all" = 5
      ∧ spfQualifying "v=spf1 include:m.example -all" = true :=
  ⟨by decide,
   (((C7_holds "").2 "v=spf1 include:m.example -all").1 (by decide)).1,
   (((C7_holds "").2 "v=spf1 include:m.example -all").1 (by decide)).2⟩

/-- Claim C8, as stated, is false at the threshold: a fixed incident whose
remediation time is exactly 720 hours is not "under" the threshold, so the
claim awards it 5, but the code's strict `> 720` comparison awards 10. -/
theorem C8_counterexample :
    (GetPreviousVulnerabilitiesScore (.ok [boundaryIncident])).toOption.map
        (fun t => (t.1, t.2.1)) = some (10, 10)
      ∧ ¬ (GetPreviousVulnerabilitiesScore (.ok [boundaryIncident])).toOption.map
          (fun t => (t.1, t.2.1)) = some (5, 10) := by
  refine ⟨by decide, by decide⟩

/-- Claim C8 (amended): only fixed incidents score — 10 points when the
remediation time is at most the 720-hour threshold (inclusive) and 5 when
it strictly exceeds it; the maximum is 10 times the total incident count,
and an empty incident list yields 0/0. -/
theorem C8_amended (incidents : List Incident) :
    GetPreviousVulnerabilitiesScore (.ok incidents)
      = .ok ((incidents.map incidentPoints).sum, (incidents.length : Int) * 10, incidents)
      ∧ (∀ i : Incident, i.fixed = true →
          (i.fixedDate - i.reportedDate ≤ MaxIncidentResponseTime * nsPerHour →
            incidentPoints i = 10)
          ∧ (MaxIncidentResponseTime * nsPerHour < i.fixedDate - i.reportedDate →
            incidentPoints i = 5))
      ∧ (∀ i : Incident, i.fixed = false → incidentPoints i = 0)
      ∧ GetPreviousVulnerabilitiesScore (.ok ([] : List Incident)) = .ok (0, 0, []) := by
  refine ⟨?_, ?_, ?_, rfl⟩
  · unfold GetPreviousVulnerabilitiesScore
    dsimp only
    rw [incident_foldl]
    simp
  · intro i hf
    constructor
    · intro hd
      unfold incidentPoints
      rw [hf, if_pos rfl, if_neg (not_lt.mpr hd)]
    · intro hd
      unfold incidentPoints
      rw [hf, if_pos rfl, if_pos hd]
  · intro i hf
    unfold incidentPoints
    rw [hf]
    rfl

/-- Witness for C8 (amended) at the exact-threshold incident. -/
theorem C8_witness :
    boundaryIncident.fixed = true
      ∧ boundaryIncident.fixedDate - boundaryIncident.reportedDate
          ≤ MaxIncidentResponseTime * nsPerHour
      ∧ incidentPoints boundaryIncident = 10 :=
  ⟨rfl, by decide,
   ((C8_amended [boundaryIncident]).2.1 boundaryIncident rfl).1 (by decide)⟩

/-- Claim C9: whenever the URL parses with an http or https scheme, the
HEAD probe succeeds and the DMARC lookup does not abort, the run completes
and its normalized score ceil((achievedTotal/maxTotal)*100)/100 lies in
[0, 1].  (Go's http.Head only ever succeeds for those two schemes, so the
scheme hypothesis is exactly the claim's probe-success premise.) -/
theorem C9_holds (u p dh d : String) (se : Except String String)
    (resp : HeadResponse) (dial : Except String (CertFields × String))
    (hp : p = "http" ∨ p = "https") :
    normalizedInUnitInterval
      (CalculateOverallScore u ⟨.ok (p, dh), .ok resp, se, .ok d, dial⟩) := by
  rw [CalculateOverallScore_ok_shape]
  show 0 ≤ normalize _ _ ∧ normalize _ _ ≤ 1
  have hprot : 0 ≤ (CalculateProtocolScore p).1 ∧ (CalculateProtocolScore p).1 ≤ 5 := by
    rcases hp with h | h <;> subst h <;> exact ⟨by decide, by decide⟩
  have hhdr := headerOk_total_bounds resp
  have hspf := GetSPFScore_bounds se
  have hdm : 0 ≤ dmarcScore d ∧ dmarcScore d ≤ 5 := by
    rcases dmarcScore_cases d with h | h <;> rw [h] <;> exact ⟨by decide, by decide⟩
  apply normalize_bounds
  · omega
  · omega
  · omega

/-- Witness for C9 on the concrete scenario run. -/
theorem C9_witness :
    ("https" = "http" ∨ "https" = "https")
      ∧ normalizedInUnitInterval (CalculateOverallScore "https://example.com" scenarioEnv) :=
  ⟨Or.inr rfl,
   C9_holds "https://example.com" "https" "example.com" "" (.ok "") scenarioHead
     (.error "tls dial skipped") (Or.inr rfl)⟩

/-- Claim C10: on every successful HEAD probe the header scorer's maximum
is exactly 45, whatever the headers and whether or not the connection
used TLS; the negotiated-TLS-version check adds its points to the
achieved total without adding anything to the maximum, and the achieved
total never exceeds 45. -/
theorem C10_holds (r : HeadResponse) (v : Nat) :
    GetResponseHeaderScore (.ok r) = .ok (GetResponseHeaderScoreOk r)
      ∧ (GetResponseHeaderScoreOk r).2.2 = 45
      ∧ 0 ≤ (GetResponseHeaderScoreOk r).1
      ∧ (GetResponseHeaderScoreOk r).1 ≤ 45
      ∧ (GetResponseHeaderScoreOk ⟨r.headers, r.proto, some v⟩).1
          = (GetResponseHeaderScoreOk ⟨r.headers, r.proto, none⟩).1 + GetTLSVersionScore v
      ∧ (GetResponseHeaderScoreOk ⟨r.headers, r.proto, some v⟩).2.2
          = (GetResponseHeaderScoreOk ⟨r.headers, r.proto, none⟩).2.2 := by
  refine ⟨rfl, rfl, (headerOk_total_bounds r).1, (headerOk_total_bounds r).2, ?_, rfl⟩
  unfold GetResponseHeaderScoreOk tlsSlot
  dsimp only
  ring

end Snift
